import Mathlib

/-!
Verification of the CAN babbling sample (`src/main.c`): a Zephyr event loop
that multiplexes a button-edge semaphore and a CAN receive message queue via
`k_poll`, sending a constant CAN frame on each button edge and logging each
received frame.

The embedding models the Zephyr kernel primitives the program uses
(`k_sem`, `k_msgq`, `k_poll`) by their documented semantics, and translates
`main.c`'s loop body, callbacks and setup sequence into pure functions over an
explicit state.  Side effects (log lines, `can_send` submissions, semaphore
gives from the TX-complete callback) are recorded as an action trace.
-/

namespace CanBabbling

/-! ## CAN driver API constants (Zephyr `drivers/can.h`) -/

def CAN_STANDARD_IDENTIFIER : Nat := 0

def CAN_EXTENDED_IDENTIFIER : Nat := 1

def CAN_DATAFRAME : Nat := 0

def CAN_REMOTEREQUEST : Nat := 1

/-- A classic CAN frame (`struct zcan_frame` / `struct can_frame`), with the
fields `main.c` uses.  `data` models the fixed `uint8_t data[8]` buffer. -/
structure CanFrameT where
  id_type : Nat
  id : Nat
  rtr : Nat
  fd : Nat
  brs : Nat
  dlc : Nat
  data : List Nat
deriving DecidableEq, Repr

/-- The constant outbound frame (`static const can_frame_t frame`,
`src/main.c` lines 40-48). -/
def frame : CanFrameT :=
  { id_type := CAN_STANDARD_IDENTIFIER
    id := 0x7c9
    rtr := CAN_DATAFRAME
    fd := 0
    brs := 0
    dlc := 0
    data := List.replicate 8 0 }

/-- A CAN acceptance filter (`struct zcan_filter` / `struct can_filter`).
The C designated initializer zeroes the unnamed `rtr` member. -/
structure CanFilterT where
  id_type : Nat
  rtr : Nat
  rtr_mask : Nat
  id : Nat
  id_mask : Nat
deriving DecidableEq, Repr

/-- The filter installed in `main` (`src/main.c` lines 98-103). -/
def rxFilter : CanFilterT :=
  { id_type := CAN_STANDARD_IDENTIFIER
    rtr := 0
    rtr_mask := 0
    id := 0x7cd
    id_mask := 0x7cd }

/-- The bus controller's acceptance check binding `rxFilter` to the receive
queue: a frame is enqueued iff its identifier type equals the filter's and its
identifier agrees with the filter's identifier on every bit selected by
`id_mask` (and likewise for the RTR bit under `rtr_mask`).  This is the
documented Zephyr filter semantics of `can_add_rx_filter_msgq`; the driver
itself is external to `src/`. -/
def canFilterMatches (flt : CanFilterT) (f : CanFrameT) : Bool :=
  f.id_type = flt.id_type &&
  ((f.id ^^^ flt.id) &&& flt.id_mask) = 0 &&
  ((f.rtr ^^^ flt.rtr) &&& flt.rtr_mask) = 0

/-! ## Zephyr kernel primitives -/

/-- A Zephyr counting semaphore: current count and maximum (limit). -/
structure KSem where
  count : Nat
  limit : Nat
deriving DecidableEq, Repr

/-- `k_sem_init(sem, initial, limit)`. -/
def kSemInit (initial limit : Nat) : KSem := ⟨initial, limit⟩

/-- `k_sem_give`: increments the count unless it is already at the limit
(Zephyr saturates the count at the limit). -/
def kSemGive (s : KSem) : KSem :=
  if s.count = s.limit then s else ⟨s.count + 1, s.limit⟩

/-- `k_sem_take(sem, K_NO_WAIT)`: returns the decremented semaphore on
success (`0` return in C), `none` when the count is zero (`-EBUSY`). -/
def kSemTakeNoWait (s : KSem) : Option KSem :=
  if 0 < s.count then some ⟨s.count - 1, s.limit⟩ else none

/-- Capacity of the receive message queue (`CAN_MSGQ_DEFINE(rxq, 100u)`). -/
def RXQ_CAPACITY : Nat := 100

/-- `k_poll` event states used by the program. -/
inductive PollState where
  | notReady
  | semAvailable
  | msgqDataAvailable
deriving DecidableEq, Repr

/-! ## Program state and observable actions -/

/-- The state the loop reads and writes: the button-edge semaphore
`btn_cb_ctx.sem`, the transmit-slot semaphore `tx_queue_sem`, the receive
message queue `rxq` (front of the list = head of the FIFO), and the two
`k_poll` event state fields `events[0].state` / `events[1].state`. -/
structure LoopState where
  btnSem : KSem
  txSem : KSem
  rxq : List CanFrameT
  ev0state : PollState
  ev1state : PollState
deriving DecidableEq, Repr

/-- The report logged for a received frame (`src/main.c` lines 183-187): the
identifier printed with a width chosen by the *constant outbound* frame's
`id_type` (3 digits for standard, 8 for extended), plus the received frame's
identifier, RTR flag, DLC and all eight data bytes. -/
structure RxReport where
  idWidth : Nat
  id : Nat
  rtr : Nat
  dlc : Nat
  bytes : List Nat
deriving DecidableEq, Repr

/-- Builds the logged report from a drained frame, exactly as the `LOG_INF`
call does: note the width selector reads `frame.id_type`, not
`rx_frame.id_type`. -/
def mkRxReport (rx : CanFrameT) : RxReport :=
  { idWidth := if frame.id_type = CAN_STANDARD_IDENTIFIER then 3 else 8
    id := rx.id
    rtr := rx.rtr
    dlc := rx.dlc
    bytes := [rx.data.getD 0 0, rx.data.getD 1 0, rx.data.getD 2 0,
              rx.data.getD 3 0, rx.data.getD 4 0, rx.data.getD 5 0,
              rx.data.getD 6 0, rx.data.getD 7 0] }

/-- Observable actions of one loop iteration or callback invocation. -/
inductive Action where
  | sendAttempt (f : CanFrameT)
  | logSendFail (err : Int)
  | logSendEnqueued
  | resetEdgeEvent
  | reportRx (r : RxReport)
  | logFrameSent
  | giveTxSem
deriving DecidableEq, Repr

/-! ## The two callbacks -/

/-- `button_callback` (`src/main.c` lines 56-63): gives the button semaphore.
Its only effect on the loop state is `k_sem_give(&ctx->sem)`. -/
def button_callback (s : LoopState) : LoopState :=
  { s with btnSem := kSemGive s.btnSem }

set_option linter.unusedVariables false in
/-- `can_tx_callback` (`src/main.c` lines 66-76): logs "CAN frame sent" and
gives the semaphore passed as user data (`tx_queue_sem`), for every value of
the `error` argument. -/
def can_tx_callback (error : Int) (txSem : KSem) : KSem × List Action :=
  (kSemGive txSem, [Action.logFrameSent, Action.giveTxSem])

/-- The TX-complete callback's effect on the whole loop state. -/
def canTxCallbackState (error : Int) (s : LoopState) : LoopState :=
  { s with txSem := (can_tx_callback error s.txSem).1 }

/-- The bus controller's enqueue of an arriving frame into `rxq`: only frames
matching the installed filter are enqueued; a full queue drops the frame
(controller policy, external to the core). -/
def rxEnqueue (f : CanFrameT) (s : LoopState) : LoopState :=
  if canFilterMatches rxFilter f && s.rxq.length < RXQ_CAPACITY then
    { s with rxq := s.rxq ++ [f] }
  else s

/-! ## The event loop -/

/-- Whether `k_poll(events, 2, K_FOREVER)` returns immediately: it inspects
the *objects* (semaphore count, message-queue occupancy), never the stale
`state` fields, and blocks when neither condition is met. -/
def pollReady (s : LoopState) : Bool :=
  0 < s.btnSem.count || !s.rxq.isEmpty

/-- The event-state updates `k_poll` performs on return: each event whose
condition holds gets its `state` set; an event whose condition does not hold
keeps its previous `state` (Zephyr requires the *caller* to reset it). -/
def pollUpdate (s : LoopState) : LoopState :=
  { s with
    ev0state := if 0 < s.btnSem.count then PollState.semAvailable else s.ev0state
    ev1state := if !s.rxq.isEmpty then PollState.msgqDataAvailable else s.ev1state }

/-- Step 2 of the loop body, the edge handling (`src/main.c` lines 167-177):
when `events[0].state` is `K_POLL_STATE_SEM_AVAILABLE`, try a non-blocking
take of the button semaphore; on success call
`can_send(dev, &frame, K_NO_WAIT, can_tx_callback, &tx_queue_sem)` (whose
synchronous return value is the oracle parameter `sendErr`; 0 = accepted,
nonzero = failure) and log the outcome; in every case then reset
`events[0].state` to `K_POLL_STATE_NOT_READY`. -/
def edgeStep (sendErr : Int) (s : LoopState) : LoopState × List Action :=
  if s.ev0state = PollState.semAvailable then
    match kSemTakeNoWait s.btnSem with
    | some sem' =>
      if sendErr ≠ 0 then
        ({ s with btnSem := sem', ev0state := PollState.notReady },
         [Action.sendAttempt frame, Action.logSendFail sendErr,
          Action.resetEdgeEvent])
      else
        ({ s with btnSem := sem', ev0state := PollState.notReady },
         [Action.sendAttempt frame, Action.logSendEnqueued,
          Action.resetEdgeEvent])
    | none =>
      ({ s with ev0state := PollState.notReady }, [Action.resetEdgeEvent])
  else (s, ([] : List Action))

/-- Step 3 of the loop body, the receive handling (`src/main.c` lines
179-189): when `events[1].state` is `K_POLL_STATE_MSGQ_DATA_AVAILABLE`, try a
non-blocking `k_msgq_get`; on success log the received frame's content.
Note the code never resets `events[1].state`. -/
def rxStep (s : LoopState) : LoopState × List Action :=
  if s.ev1state = PollState.msgqDataAvailable then
    match s.rxq with
    | rx :: rest => ({ s with rxq := rest }, [Action.reportRx (mkRxReport rx)])
    | [] => (s, ([] : List Action))
  else (s, ([] : List Action))

/-- The loop body after `k_poll` returned 0 (`src/main.c` lines 166-190):
edge handling, then receive handling, with the action traces in program
order. -/
def loopBody (sendErr : Int) (s : LoopState) : LoopState × List Action :=
  ((rxStep (edgeStep sendErr s).1).1,
   (edgeStep sendErr s).2 ++ (rxStep (edgeStep sendErr s).1).2)

/-- One full successful iteration: `k_poll` returns (having set the ready
event states), then the body runs. -/
def loopIter (sendErr : Int) (s : LoopState) : LoopState × List Action :=
  loopBody sendErr (pollUpdate s)

/-- The loop state right after setup, parameterised by the configured
transmit queue depth `n` (`CONFIG_SAMPLE_CAN_BABBLING_TX_QUEUE_SIZE`):
`tx_queue_sem` initialised with count = limit = n, the button semaphore with
count 0 and limit 1, an empty receive queue, and both poll events
`K_POLL_STATE_NOT_READY`. -/
def initState (n : Nat) : LoopState :=
  { btnSem := kSemInit 0 1
    txSem := kSemInit n n
    rxq := []
    ev0state := PollState.notReady
    ev1state := PollState.notReady }

/-- One interleaving step of the whole system: a button edge (interrupt
context), a bus frame arrival (controller context), a transmit completion
(controller context), or one dispatcher iteration (which requires `k_poll`
to have a ready condition). -/
inductive Step : LoopState → LoopState → Prop where
  | edge (s : LoopState) : Step s (button_callback s)
  | rxArrive (s : LoopState) (f : CanFrameT) : Step s (rxEnqueue f s)
  | txDone (s : LoopState) (e : Int) : Step s (canTxCallbackState e s)
  | dispatch (s : LoopState) (e : Int) (h : pollReady s = true) :
      Step s (loopIter e s).1

/-- States reachable from the post-setup state with TX queue depth `n`. -/
def Reachable (n : Nat) (s : LoopState) : Prop :=
  Relation.ReflTransGen Step (initState n) s

/-! ## Trace counting helpers -/

def isSendAttempt : Action → Bool
  | Action.sendAttempt _ => true
  | _ => false

def countSendAttempts (l : List Action) : Nat := l.countP isSendAttempt

def countResets (l : List Action) : Nat :=
  l.countP fun a => a = Action.resetEdgeEvent

def countTxGives (l : List Action) : Nat :=
  l.countP fun a => a = Action.giveTxSem

/-! ## Setup sequence (`main`, before the loop) -/

/-- The outcome of `main`'s setup phase: either an early `return` preceded by
a `printk` message, or reaching the infinite `while (true)` loop. -/
inductive MainResult where
  | earlyReturn (msg : String)
  | entersLoop
deriving DecidableEq, Repr

/-- The environment `main`'s setup phase consults: device readiness, the
results of the fallible driver calls, and the two build-time conditions
(`KERNEL_VERSION_NUMBER == ZEPHYR_VERSION(3, 2, 0)`, which compiles in the
`can_start` check, and `DT_NODE_EXISTS(BUTTON_NODE)`, which compiles in the
button setup). -/
structure SetupEnv where
  canDeviceReady : Bool
  addFilterResult : Int
  canStartCompiled : Bool
  canStartResult : Int
  buttonNodeExists : Bool
  btnPortReady : Bool
  gpioConfigureResult : Int
  gpioIntConfigureResult : Int
deriving DecidableEq, Repr

/-- The setup sequence of `main` (`src/main.c` lines 90-141) in program
order: each failed check prints its message and returns early; otherwise the
loop is entered. -/
def mainSetup (env : SetupEnv) : MainResult :=
  if !env.canDeviceReady then
    MainResult.earlyReturn "CAN device not ready"
  else if env.addFilterResult < 0 then
    MainResult.earlyReturn "Failed to add filter: %d"
  else if env.canStartCompiled && env.canStartResult ≠ 0 then
    MainResult.earlyReturn "Error starting CAN controller [%d]"
  else if env.buttonNodeExists && !env.btnPortReady then
    MainResult.earlyReturn "button device not ready\n"
  else if env.buttonNodeExists && env.gpioConfigureResult ≠ 0 then
    MainResult.earlyReturn "failed to configure button GPIO (err %d)\n"
  else if env.buttonNodeExists && env.gpioIntConfigureResult ≠ 0 then
    MainResult.earlyReturn "failed to configure button interrupt (err %d)\n"
  else MainResult.entersLoop

/-- The six early-return messages, in program order. -/
def setupMessages : List String :=
  ["CAN device not ready",
   "Failed to add filter: %d",
   "Error starting CAN controller [%d]",
   "button device not ready\n",
   "failed to configure button GPIO (err %d)\n",
   "failed to configure button interrupt (err %d)\n"]

/-! ## Structural lemmas about the loop -/

theorem kSemGive_limit (s : KSem) : (kSemGive s).limit = s.limit := by
  unfold kSemGive
  split <;> rfl

theorem kSemGive_count_le (s : KSem) (h : s.count ≤ s.limit) :
    (kSemGive s).count ≤ s.limit := by
  unfold kSemGive
  split
  · exact h
  · rename_i hne
    show s.count + 1 ≤ s.limit
    omega

theorem edgeStep_txSem (e : Int) (s : LoopState) :
    (edgeStep e s).1.txSem = s.txSem := by
  unfold edgeStep
  split
  · split
    · split <;> rfl
    · rfl
  · rfl

theorem edgeStep_rxq (e : Int) (s : LoopState) :
    (edgeStep e s).1.rxq = s.rxq := by
  unfold edgeStep
  split
  · split
    · split <;> rfl
    · rfl
  · rfl

theorem edgeStep_ev1state (e : Int) (s : LoopState) :
    (edgeStep e s).1.ev1state = s.ev1state := by
  unfold edgeStep
  split
  · split
    · split <;> rfl
    · rfl
  · rfl

theorem rxStep_txSem (s : LoopState) : (rxStep s).1.txSem = s.txSem := by
  unfold rxStep
  split
  · split <;> rfl
  · rfl

theorem rxStep_btnSem (s : LoopState) : (rxStep s).1.btnSem = s.btnSem := by
  unfold rxStep
  split
  · split <;> rfl
  · rfl

theorem rxStep_ev0state (s : LoopState) :
    (rxStep s).1.ev0state = s.ev0state := by
  unfold rxStep
  split
  · split <;> rfl
  · rfl

theorem rxStep_no_attempt (s : LoopState) :
    countSendAttempts (rxStep s).2 = 0 := by
  unfold rxStep
  split
  · split <;> rfl
  · rfl

theorem rxStep_no_reset (s : LoopState) : countResets (rxStep s).2 = 0 := by
  unfold rxStep
  split
  · split <;> rfl
  · rfl

theorem rxStep_attempt_not_mem (s : LoopState) (f : CanFrameT) :
    Action.sendAttempt f ∉ (rxStep s).2 := by
  unfold rxStep
  split
  · split <;> simp
  · simp

theorem rxStep_enqueued_not_mem (s : LoopState) :
    Action.logSendEnqueued ∉ (rxStep s).2 := by
  unfold rxStep
  split
  · split <;> simp
  · simp

theorem loopBody_txSem (e : Int) (s : LoopState) :
    (loopBody e s).1.txSem = s.txSem := by
  unfold loopBody
  rw [rxStep_txSem, edgeStep_txSem]

theorem loopIter_txSem (e : Int) (s : LoopState) :
    (loopIter e s).1.txSem = s.txSem := by
  unfold loopIter pollUpdate
  rw [loopBody_txSem]

theorem rxEnqueue_txSem (f : CanFrameT) (s : LoopState) :
    (rxEnqueue f s).txSem = s.txSem := by
  unfold rxEnqueue
  split <;> rfl

theorem countSendAttempts_append (a b : List Action) :
    countSendAttempts (a ++ b) = countSendAttempts a + countSendAttempts b :=
  List.countP_append _ _ _

theorem countResets_append (a b : List Action) :
    countResets (a ++ b) = countResets a + countResets b :=
  List.countP_append _ _ _

theorem loopBody_attempts (e : Int) (s : LoopState) :
    countSendAttempts (loopBody e s).2 =
      countSendAttempts (edgeStep e s).2 := by
  unfold loopBody
  rw [countSendAttempts_append, rxStep_no_attempt, Nat.add_zero]

theorem edgeStep_attempts_of_count_zero (e : Int) (s : LoopState)
    (h : s.btnSem.count = 0) : countSendAttempts (edgeStep e s).2 = 0 := by
  unfold edgeStep kSemTakeNoWait
  split
  · rw [h, if_neg (by decide : ¬ (0 : Nat) < 0)]
    rfl
  · rfl

theorem edgeStep_ready_claimed (e : Int) (s : LoopState)
    (h0 : s.ev0state = PollState.semAvailable) (h1 : 0 < s.btnSem.count) :
    countSendAttempts (edgeStep e s).2 = 1 ∧
    (edgeStep e s).1.btnSem = ⟨s.btnSem.count - 1, s.btnSem.limit⟩ ∧
    (edgeStep e s).1.ev0state = PollState.notReady := by
  unfold edgeStep kSemTakeNoWait
  rw [h0]
  simp only [if_pos h1, reduceIte]
  split <;> exact ⟨rfl, rfl, rfl⟩

theorem loopBody_resets (e : Int) (s : LoopState) :
    countResets (loopBody e s).2 = countResets (edgeStep e s).2 := by
  unfold loopBody
  rw [countResets_append, rxStep_no_reset, Nat.add_zero]

theorem edgeStep_resets_ready (e : Int) (s : LoopState)
    (h : s.ev0state = PollState.semAvailable) :
    countResets (edgeStep e s).2 = 1 ∧
    (edgeStep e s).1.ev0state = PollState.notReady := by
  unfold edgeStep
  rw [if_pos h]
  split
  · split <;> exact ⟨rfl, rfl⟩
  · exact ⟨rfl, rfl⟩

theorem edgeStep_attempt_mem (e : Int) (s : LoopState) (f : CanFrameT)
    (h : Action.sendAttempt f ∈ (edgeStep e s).2) : f = frame := by
  unfold edgeStep at h
  split at h
  · split at h
    · split at h <;> simp at h <;> exact h
    · simp at h
  · simp at h

theorem pollUpdate_btnSem (s : LoopState) :
    (pollUpdate s).btnSem = s.btnSem := rfl

theorem pollUpdate_txSem (s : LoopState) :
    (pollUpdate s).txSem = s.txSem := rfl

theorem pollUpdate_ev0_ready (s : LoopState) (h : 0 < s.btnSem.count) :
    (pollUpdate s).ev0state = PollState.semAvailable := by
  show (if 0 < s.btnSem.count then PollState.semAvailable else s.ev0state) =
    PollState.semAvailable
  rw [if_pos h]

theorem edgeStep_fail_trace (e : Int) (s : LoopState)
    (h0 : s.ev0state = PollState.semAvailable) (h1 : 0 < s.btnSem.count)
    (he : e ≠ 0) :
    (edgeStep e s).2 =
      [Action.sendAttempt frame, Action.logSendFail e,
       Action.resetEdgeEvent] := by
  unfold edgeStep kSemTakeNoWait
  rw [h0]
  simp only [if_pos h1, reduceIte]
  rw [if_pos he]

/-! ## Claim theorems -/

/-- C5: for every completion, whether it reports success (`error = 0`) or a
hardware error, `can_tx_callback` performs exactly one give of
`tx_queue_sem` — never more than one per completion. -/
theorem tx_complete_single_restore (e : Int) (sem : KSem) :
    countTxGives (can_tx_callback e sem).2 = 1 ∧
    (can_tx_callback e sem).1 = kSemGive sem :=
  ⟨rfl, rfl⟩

/-- C10: the transmission-completion callback ignores its error argument
entirely: any two error values yield the identical state change and trace,
the trace always holds the same "CAN frame sent" log line, and the error
value never appears in the result. -/
theorem tx_complete_ignores_error (e1 e2 : Int) (sem : KSem) :
    can_tx_callback e1 sem = can_tx_callback e2 sem ∧
    Action.logFrameSent ∈ (can_tx_callback e1 sem).2 :=
  ⟨rfl, by simp [can_tx_callback]⟩

/-- C9: in every iteration in which the edge wait condition is observed
ready (`events[0].state = K_POLL_STATE_SEM_AVAILABLE`), the loop body resets
that state to `K_POLL_STATE_NOT_READY` exactly once — for every `can_send`
result and regardless of whether the non-blocking semaphore take succeeded —
and performs no reset when the edge condition was not observed. -/
theorem edge_event_reset_exactly_once (e : Int) (s : LoopState) :
    (s.ev0state = PollState.semAvailable →
      countResets (loopBody e s).2 = 1 ∧
      (loopBody e s).1.ev0state = PollState.notReady) ∧
    (s.ev0state ≠ PollState.semAvailable →
      countResets (loopBody e s).2 = 0) := by
  constructor
  · intro h
    have h2 := edgeStep_resets_ready e s h
    refine ⟨by rw [loopBody_resets]; exact h2.1, ?_⟩
    show (rxStep (edgeStep e s).1).1.ev0state = PollState.notReady
    rw [rxStep_ev0state]
    exact h2.2
  · intro h
    rw [loopBody_resets]
    unfold edgeStep
    rw [if_neg h]
    rfl

/-- Witness state for C9: the edge event observed ready while the semaphore
count is 0 (a raced claim), so the non-blocking take fails. -/
def sObserved : LoopState :=
  { btnSem := ⟨0, 1⟩
    txSem := ⟨3, 3⟩
    rxq := []
    ev0state := PollState.semAvailable
    ev1state := PollState.notReady }

/-- C9 witness: even with a failing take the reset happens exactly once. -/
theorem edge_event_reset_exactly_once_witness :
    countResets (loopBody 7 sObserved).2 = 1 ∧
    (loopBody 7 sObserved).1.ev0state = PollState.notReady :=
  (edge_event_reset_exactly_once 7 sObserved).1 rfl

/-- C8: the outbound frame is the constant
{standard identifier, id 0x7c9, data frame (rtr = 0), fd = 0, brs = 0,
dlc = 0, all-zero payload buffer}, and every transmission attempt the loop
body ever emits submits exactly this frame. -/
theorem outbound_frame_constant :
    frame.id_type = CAN_STANDARD_IDENTIFIER ∧ frame.id = 0x7c9 ∧
    frame.rtr = CAN_DATAFRAME ∧ frame.fd = 0 ∧ frame.brs = 0 ∧
    frame.dlc = 0 ∧ frame.data = List.replicate 8 0 ∧
    ∀ (e : Int) (s : LoopState) (f : CanFrameT),
      Action.sendAttempt f ∈ (loopBody e s).2 → f = frame := by
  refine ⟨rfl, rfl, rfl, rfl, rfl, rfl, rfl, ?_⟩
  intro e s f h
  unfold loopBody at h
  rw [List.mem_append] at h
  rcases h with h | h
  · exact edgeStep_attempt_mem e s f h
  · exact absurd h (rxStep_attempt_not_mem _ f)

/-- Witness state for C8/C6: an edge pending and observed. -/
def sEdgePending : LoopState :=
  { btnSem := ⟨1, 1⟩
    txSem := ⟨3, 3⟩
    rxq := []
    ev0state := PollState.semAvailable
    ev1state := PollState.notReady }

/-- C8 witness: a concrete iteration emits an attempt, and it carries the
constant frame. -/
theorem outbound_frame_constant_witness :
    Action.sendAttempt frame ∈ (loopBody 0 sEdgePending).2 ∧ frame = frame :=
  ⟨by decide,
   outbound_frame_constant.2.2.2.2.2.2.2 0 sEdgePending frame (by decide)⟩

/-- C6: when `can_send` fails synchronously (nonzero return `e`), the
iteration makes exactly one attempt, logs the failure (and no success line),
consumes the pending edge, and — since attempts happen only when the edge
semaphore was claimable — no later iteration retries for the same edge:
with the edge semaphore count at 0, an iteration makes no attempt at all. -/
theorem send_failure_logged_dropped (e : Int) (s : LoopState)
    (he : e ≠ 0) (hb : s.btnSem.count = 1) :
    countSendAttempts (loopIter e s).2 = 1 ∧
    Action.logSendFail e ∈ (loopIter e s).2 ∧
    Action.logSendEnqueued ∉ (loopIter e s).2 ∧
    (loopIter e s).1.btnSem.count = 0 ∧
    (∀ (e2 : Int) (t : LoopState), t.btnSem.count = 0 →
      countSendAttempts (loopIter e2 t).2 = 0) := by
  have h1 : 0 < (pollUpdate s).btnSem.count := by
    rw [pollUpdate_btnSem, hb]
    decide
  have h0 := pollUpdate_ev0_ready s (by rw [hb]; decide)
  have tr := edgeStep_fail_trace e (pollUpdate s) h0 h1 he
  refine ⟨?_, ?_, ?_, ?_, ?_⟩
  · show countSendAttempts (loopBody e (pollUpdate s)).2 = 1
    rw [loopBody_attempts, tr]
    rfl
  · show Action.logSendFail e ∈ (loopBody e (pollUpdate s)).2
    unfold loopBody
    rw [List.mem_append, tr]
    left
    simp
  · show Action.logSendEnqueued ∉ (loopBody e (pollUpdate s)).2
    unfold loopBody
    rw [List.mem_append, tr]
    rintro (h | h)
    · simp at h
    · exact rxStep_enqueued_not_mem _ h
  · show (loopBody e (pollUpdate s)).1.btnSem.count = 0
    unfold loopBody
    rw [rxStep_btnSem,
      (edgeStep_ready_claimed e (pollUpdate s) h0 h1).2.1]
    rw [pollUpdate_btnSem, hb]
  · intro e2 t ht
    show countSendAttempts (loopBody e2 (pollUpdate t)).2 = 0
    rw [loopBody_attempts]
    exact edgeStep_attempts_of_count_zero e2 (pollUpdate t)
      (by rw [pollUpdate_btnSem]; exact ht)

/-- C6 witness: a concrete failing send (`-11`, `-EAGAIN`) is attempted once
and logged as a failure. -/
theorem send_failure_logged_dropped_witness :
    countSendAttempts (loopIter (-11) (button_callback (initState 3))).2 = 1 ∧
    Action.logSendFail (-11) ∈
      (loopIter (-11) (button_callback (initState 3))).2 :=
  ⟨(send_failure_logged_dropped (-11) (button_callback (initState 3))
      (by decide) (by decide)).1,
   (send_failure_logged_dropped (-11) (button_callback (initState 3))
      (by decide) (by decide)).2.1⟩

set_option linter.unusedVariables false in
/-- C2: in every reachable state, if no edge token is pending
(`btn_cb_ctx.sem` count 0) and the inbound queue is empty, `k_poll` blocks
(its readiness check over the two waited objects fails) instead of
returning immediately — the check never consults the possibly stale
`events[1].state` field, so no busy poll arises after a frame was drained. -/
theorem poll_blocks_when_idle (n : Nat) (s : LoopState) (hr : Reachable n s)
    (hb : s.btnSem.count = 0) (hq : s.rxq = []) : pollReady s = false := by
  unfold pollReady
  rw [hb, hq]
  rfl

/-- A frame matching the installed filter, used to exercise the receive
path in witnesses. -/
def rxProbe : CanFrameT :=
  { id_type := CAN_STANDARD_IDENTIFIER
    id := 0x7cd
    rtr := 0
    fd := 0
    brs := 0
    dlc := 2
    data := [1, 2, 0, 0, 0, 0, 0, 0] }

/-- The reachable state after one frame arrived and was drained: the queue
is empty again but `events[1].state` is left stale at
`K_POLL_STATE_MSGQ_DATA_AVAILABLE` (the code never resets it). -/
def staleState : LoopState := (loopIter 0 (rxEnqueue rxProbe (initState 3))).1

theorem staleState_reachable : Reachable 3 staleState :=
  Relation.ReflTransGen.tail
    (Relation.ReflTransGen.single (Step.rxArrive (initState 3) rxProbe))
    (Step.dispatch (rxEnqueue rxProbe (initState 3)) 0 (by decide))

/-- C2 witness: in the reachable post-drain state with the stale
`events[1].state`, the poll still blocks. -/
theorem poll_blocks_when_idle_witness :
    pollReady staleState = false ∧
    staleState.ev1state = PollState.msgqDataAvailable :=
  ⟨poll_blocks_when_idle 3 staleState staleState_reachable (by decide)
    (by decide), by decide⟩

theorem button_callback_iterate (n : Nat) (s : LoopState) :
    button_callback^[n] s = { s with btnSem := kSemGive^[n] s.btnSem } := by
  induction n with
  | zero => rfl
  | succ m ih =>
    rw [Function.iterate_succ_apply', Function.iterate_succ_apply', ih]
    rfl

theorem kSemGive_saturated (k : Nat) :
    kSemGive^[k] (⟨1, 1⟩ : KSem) = ⟨1, 1⟩ := by
  induction k with
  | zero => rfl
  | succ j ih =>
    rw [Function.iterate_succ_apply]
    exact ih

theorem kSemGive_iterate_binary (n : Nat) (h : 1 ≤ n) :
    kSemGive^[n] (kSemInit 0 1) = ⟨1, 1⟩ := by
  obtain ⟨m, rfl⟩ : ∃ m, n = m + 1 := ⟨n - 1, by omega⟩
  rw [Function.iterate_succ_apply]
  exact kSemGive_saturated m

/-- C4: for every N ≥ 1 button-edge callbacks delivered before the
dispatcher next claims the edge token, the binary semaphore saturates at
count 1 (edges are coalesced, not counted), and the next dispatcher
iteration makes exactly one transmission attempt, leaving the token
consumed. -/
theorem edges_coalesced (n : Nat) (e : Int) (s : LoopState)
    (hn : 1 ≤ n) (hs : s.btnSem = kSemInit 0 1) :
    (button_callback^[n] s).btnSem = ⟨1, 1⟩ ∧
    countSendAttempts (loopIter e (button_callback^[n] s)).2 = 1 ∧
    (loopIter e (button_callback^[n] s)).1.btnSem.count = 0 := by
  have hb : (button_callback^[n] s).btnSem = ⟨1, 1⟩ := by
    rw [button_callback_iterate]
    show kSemGive^[n] s.btnSem = _
    rw [hs]
    exact kSemGive_iterate_binary n hn
  have h1 : 0 < (pollUpdate (button_callback^[n] s)).btnSem.count := by
    rw [pollUpdate_btnSem, hb]
    decide
  have h0 := pollUpdate_ev0_ready (button_callback^[n] s)
    (by rw [hb]; decide)
  have hc := edgeStep_ready_claimed e (pollUpdate (button_callback^[n] s))
    h0 h1
  refine ⟨hb, ?_, ?_⟩
  · show countSendAttempts
      (loopBody e (pollUpdate (button_callback^[n] s))).2 = 1
    rw [loopBody_attempts]
    exact hc.1
  · show (loopBody e (pollUpdate (button_callback^[n] s))).1.btnSem.count = 0
    unfold loopBody
    rw [rxStep_btnSem, hc.2.1, pollUpdate_btnSem, hb]
    rfl

/-- C4 witness: three back-to-back edges coalesce into one pending token and
one transmission attempt. -/
theorem edges_coalesced_witness :
    (button_callback^[3] (initState 3)).btnSem = ⟨1, 1⟩ ∧
    countSendAttempts (loopIter 0 (button_callback^[3] (initState 3))).2 = 1 :=
  ⟨(edges_coalesced 3 0 (initState 3) (by decide) rfl).1,
   (edges_coalesced 3 0 (initState 3) (by decide) rfl).2.1⟩

theorem step_txSem_bound (a b : LoopState) (hs : Step a b)
    (h : a.txSem.count ≤ a.txSem.limit) :
    b.txSem.count ≤ b.txSem.limit ∧ b.txSem.limit = a.txSem.limit := by
  cases hs with
  | edge => exact ⟨h, rfl⟩
  | rxArrive f =>
    rw [rxEnqueue_txSem]
    exact ⟨h, rfl⟩
  | txDone e =>
    constructor
    · rw [show (canTxCallbackState e a).txSem = kSemGive a.txSem from rfl,
        kSemGive_limit]
      exact kSemGive_count_le _ h
    · exact kSemGive_limit _
  | dispatch e hp =>
    rw [loopIter_txSem]
    exact ⟨h, rfl⟩

theorem reachable_txSem_invariant (n : Nat) (s : LoopState)
    (h : Reachable n s) : s.txSem.count ≤ n ∧ s.txSem.limit = n := by
  induction h with
  | refl => exact ⟨le_refl n, rfl⟩
  | tail hab hbc ih =>
    have h2 := step_txSem_bound _ _ hbc (by rw [ih.2]; exact ih.1)
    have hcl := h2.2.trans ih.2
    exact ⟨by rw [← hcl] at *; exact h2.1, hcl⟩

/-- C1 (amended): `tx_queue_sem` is initialised with count = maximum =
`CONFIG_SAMPLE_CAN_BABBLING_TX_QUEUE_SIZE`, and in every reachable state its
count is a non-negative integer (a `Nat`) never exceeding that maximum
(`k_sem_give` saturates); the completion callback restores one unit
asynchronously; but the dispatcher never consumes a unit before a
transmission attempt — a loop iteration leaves `tx_queue_sem` unchanged —
and nothing is restored on synchronous submit failure. -/
theorem tx_token_bounded_not_consumed (n : Nat) (s : LoopState)
    (h : Reachable n s) :
    s.txSem.count ≤ n ∧ s.txSem.limit = n ∧
    (initState n).txSem.count = n ∧
    ∀ e : Int, (loopIter e s).1.txSem = s.txSem := by
  have h2 := reachable_txSem_invariant n s h
  exact ⟨h2.1, h2.2, rfl, fun e => loopIter_txSem e s⟩

/-- C1 witness: the invariant and the unchanged-by-iteration property at the
initial state with depth 3. -/
theorem tx_token_bounded_not_consumed_witness :
    (initState 3).txSem.count ≤ 3 ∧
    (loopIter 0 (initState 3)).1.txSem = (initState 3).txSem :=
  ⟨(tx_token_bounded_not_consumed 3 (initState 3)
      Relation.ReflTransGen.refl).1,
   (tx_token_bounded_not_consumed 3 (initState 3)
      Relation.ReflTransGen.refl).2.2.2 0⟩

/-- C1 counterexample: the claim "one unit of `tx_queue_sem` is consumed
before every transmission attempt (restored only later, on completion)" is
false on the code: in the reachable state with one pending edge and
`tx_queue_sem` at 3/3, the iteration makes a successfully submitted
transmission attempt yet the count stays 3 — `main` never takes
`tx_queue_sem`. -/
theorem tx_token_consume_counterexample :
    ¬ (∀ (n : Nat) (s : LoopState) (e : Int), Reachable n s → e = 0 →
        0 < countSendAttempts (loopIter e s).2 →
        (loopIter e s).1.txSem.count + 1 = s.txSem.count) := by
  intro hclaim
  have h := hclaim 3 (button_callback (initState 3)) 0
    (Relation.ReflTransGen.single (Step.edge (initState 3))) rfl (by decide)
  exact absurd h (by decide)

theorem pollUpdate_rxq (s : LoopState) : (pollUpdate s).rxq = s.rxq := rfl

theorem pollUpdate_ev1_ready (s : LoopState) (h : s.rxq ≠ []) :
    (pollUpdate s).ev1state = PollState.msgqDataAvailable := by
  cases hq : s.rxq with
  | nil => exact absurd hq h
  | cons a t =>
    show (if !s.rxq.isEmpty then PollState.msgqDataAvailable else s.ev1state)
      = PollState.msgqDataAvailable
    rw [hq]
    rfl

theorem rxEnqueue_match_empty (f : CanFrameT) (s : LoopState)
    (hm : canFilterMatches rxFilter f = true) (hq : s.rxq = []) :
    rxEnqueue f s = { s with rxq := [f] } := by
  unfold rxEnqueue
  rw [hq, hm]
  rfl

theorem rxStep_drain (t : LoopState) (f : CanFrameT) (rest : List CanFrameT)
    (h1 : t.ev1state = PollState.msgqDataAvailable) (hq : t.rxq = f :: rest) :
    rxStep t = ({ t with rxq := rest }, [Action.reportRx (mkRxReport f)]) := by
  unfold rxStep
  rw [if_pos h1, hq]

theorem getD_eight (l : List Nat) (h : l.length = 8) :
    [l.getD 0 0, l.getD 1 0, l.getD 2 0, l.getD 3 0,
     l.getD 4 0, l.getD 5 0, l.getD 6 0, l.getD 7 0] = l := by
  rcases l with _ | ⟨a0, _ | ⟨a1, _ | ⟨a2, _ | ⟨a3, _ |
    ⟨a4, _ | ⟨a5, _ | ⟨a6, _ | ⟨a7, _ | ⟨a8, t⟩⟩⟩⟩⟩⟩⟩⟩⟩ <;>
    first
    | rfl
    | (simp only [List.length_nil, List.length_cons] at h; omega)

/-- C3: a frame enqueued into the receive queue matching the installed
filter is drained and reported with exactly its own identifier, identifier
type (the logged 3-digit standard width agrees with the frame's standard
identifier type), remote-frame flag, DLC and payload bytes — round-trip
identity of the receive path. -/
theorem receive_round_trip (f : CanFrameT) (s : LoopState) (e : Int)
    (hm : canFilterMatches rxFilter f = true) (hq : s.rxq = [])
    (hlen : f.data.length = 8) :
    Action.reportRx (mkRxReport f) ∈ (loopIter e (rxEnqueue f s)).2 ∧
    mkRxReport f =
      { idWidth := if f.id_type = CAN_STANDARD_IDENTIFIER then 3 else 8
        id := f.id
        rtr := f.rtr
        dlc := f.dlc
        bytes := f.data } := by
  have hid : f.id_type = CAN_STANDARD_IDENTIFIER := by
    unfold canFilterMatches at hm
    simp only [Bool.and_eq_true, decide_eq_true_eq] at hm
    exact hm.1.1
  have hs1 := rxEnqueue_match_empty f s hm hq
  constructor
  · show Action.reportRx (mkRxReport f) ∈
      (loopBody e (pollUpdate (rxEnqueue f s))).2
    have hrxq : (edgeStep e (pollUpdate (rxEnqueue f s))).1.rxq = [f] := by
      rw [edgeStep_rxq, pollUpdate_rxq, hs1]
    have hev1 : (edgeStep e (pollUpdate (rxEnqueue f s))).1.ev1state =
        PollState.msgqDataAvailable := by
      rw [edgeStep_ev1state]
      apply pollUpdate_ev1_ready
      rw [hs1]
      simp
    unfold loopBody
    rw [rxStep_drain _ f [] hev1 hrxq]
    exact List.mem_append_right _ (List.mem_singleton.mpr rfl)
  · unfold mkRxReport
    rw [hid, getD_eight f.data hlen]
    rfl

/-- C3 witness: the concrete matching frame `rxProbe` round-trips. -/
theorem receive_round_trip_witness :
    Action.reportRx (mkRxReport rxProbe) ∈
      (loopIter 0 (rxEnqueue rxProbe (initState 3))).2 ∧
    mkRxReport rxProbe =
      { idWidth := 3
        id := 0x7cd
        rtr := 0
        dlc := 2
        bytes := [1, 2, 0, 0, 0, 0, 0, 0] } :=
  ⟨(receive_round_trip rxProbe (initState 3) 0 (by decide) rfl rfl).1,
   (receive_round_trip rxProbe (initState 3) 0 (by decide) rfl rfl).2⟩

/-- The environment in which every setup check succeeds. -/
def allGoodEnv : SetupEnv :=
  { canDeviceReady := true
    addFilterResult := 0
    canStartCompiled := true
    canStartResult := 0
    buttonNodeExists := true
    btnPortReady := true
    gpioConfigureResult := 0
    gpioIntConfigureResult := 0 }

/-- The environment where only the `can_start` call (compiled in when
building against Zephyr 3.2.0) fails. -/
def canStartFailEnv : SetupEnv :=
  { canDeviceReady := true
    addFilterResult := 0
    canStartCompiled := true
    canStartResult := 1
    buttonNodeExists := true
    btnPortReady := true
    gpioConfigureResult := 0
    gpioIntConfigureResult := 0 }

/-- C7 counterexample: with every device ready, the filter installed and the
GPIO configuration succeeding, a failing `can_start` (the check compiled in
for Zephyr 3.2.0) still makes `main` return early — an early return not among
the claim's three listed failure kinds. -/
theorem early_return_extra_cause_counterexample :
    mainSetup canStartFailEnv =
      MainResult.earlyReturn "Error starting CAN controller [%d]" ∧
    canStartFailEnv.canDeviceReady = true ∧
    canStartFailEnv.addFilterResult = 0 ∧
    canStartFailEnv.btnPortReady = true ∧
    canStartFailEnv.gpioConfigureResult = 0 ∧
    canStartFailEnv.gpioIntConfigureResult = 0 :=
  ⟨rfl, rfl, rfl, rfl, rfl, rfl⟩

/-- C7 (amended): the loop is entered iff no setup check fails; the early
returns are exactly: CAN device not ready, filter install failure, CAN
controller start failure (compiled in only for Zephyr 3.2.0), button device
not ready, GPIO configure failure, GPIO interrupt-configure failure — each
reported with one of six pairwise distinct messages. -/
theorem early_return_conditions (env : SetupEnv) :
    (mainSetup env = MainResult.entersLoop ↔
      (env.canDeviceReady = true ∧
       ¬ env.addFilterResult < 0 ∧
       ¬ (env.canStartCompiled = true ∧ env.canStartResult ≠ 0) ∧
       (env.buttonNodeExists = true →
         (env.btnPortReady = true ∧ env.gpioConfigureResult = 0 ∧
          env.gpioIntConfigureResult = 0)))) ∧
    (∀ msg : String, mainSetup env = MainResult.earlyReturn msg →
      msg ∈ setupMessages) ∧
    setupMessages.Pairwise (fun a b => ¬ a = b) := by
  refine ⟨?_, ?_, by decide⟩
  · unfold mainSetup
    split_ifs with h1 h2 h3 h4 h5 h6 <;> simp_all
  · intro msg hmsg
    unfold mainSetup at hmsg
    split_ifs at hmsg <;> simp_all [setupMessages]

/-- C7 witness: with every check succeeding the loop is entered, and a
not-ready CAN device returns early with its distinct message. -/
theorem early_return_conditions_witness :
    mainSetup allGoodEnv = MainResult.entersLoop ∧
    "CAN device not ready" ∈ setupMessages :=
  ⟨(early_return_conditions allGoodEnv).1.mpr (by decide),
   (early_return_conditions
      { allGoodEnv with canDeviceReady := false }).2.1
      "CAN device not ready" rfl⟩

end CanBabbling
